import Mathlib

/-!
Shallow embedding of the core of `connecting-dots-rs`: the auto-gain
intensity controller (`State::update`, src/state.rs), resize handling
(`State::resize`), the render entry point (`State::render`) and the
per-event driver (`App::window_event`, src/app.rs).

Modelling conventions:
* `f32` arithmetic is modelled exactly over `ℚ`; IEEE-754 rounding is
  abstracted away.
* The thread-local random generator (`rand::rng()`) is modelled as a stream
  of rational draws (conceptually uniform in `[0,1)`) together with a
  cursor; every `random_range` / `random_bool` call consumes one draw and
  advances the cursor, as successive calls on the thread RNG do.
* GPU objects (surface, MSAA texture, uniform buffers, points buffer) are
  modelled by the host-visible data that determines them; `State::render`
  additionally reports the GPU work it issues in a `RenderWork` record.
* A Rust panic (here only `.unwrap()` on an `Err` poll result) is modelled
  by returning `none`.
-/

/-- Mirror of the private `IntensityState`-like pair of fields
`last_intensity` / `intensity_multiplier` of `State` (src/state.rs). -/
structure IntensityState where
  last_intensity : ℚ
  intensity_multiplier : ℚ
deriving DecidableEq

/-- The candidate intensity of `State::update` (src/state.rs lines
615-619): the polled sample scaled by the gain multiplier when a sample is
present, otherwise the previous intensity decayed by `dt / 20` and floored
at `0`. -/
def candidateIntensity (raw_sample : Option ℚ) (dt : ℚ) (s : IntensityState) : ℚ :=
  match raw_sample with
  | some v => v * s.intensity_multiplier
  | none => max (s.last_intensity - dt / 20) 0

/-- The gain-adjustment part of `State::update` (src/state.rs lines
621-633): a candidate above `1` divides the multiplier by the candidate and
clips the output to `1`; a nonzero candidate at most `1` ramps the
multiplier up by `dt / 20` capped at `100`; a zero candidate leaves the
multiplier alone.  The produced intensity is persisted as
`last_intensity`. -/
def applyGain (intensity dt : ℚ) (s : IntensityState) : ℚ × IntensityState :=
  if 1 < intensity then
    (1, ⟨1, s.intensity_multiplier / intensity⟩)
  else if intensity ≠ 0 then
    (intensity, ⟨intensity, min (s.intensity_multiplier + dt / 20) 100⟩)
  else
    (intensity, ⟨intensity, s.intensity_multiplier⟩)

/-- The per-frame intensity step of `State::update` (src/state.rs lines
615-634), after the poll result has been unwrapped. -/
def updateIntensity (raw_sample : Option ℚ) (dt : ℚ) (s : IntensityState) :
    ℚ × IntensityState :=
  applyGain (candidateIntensity raw_sample dt s) dt s

/-- Initial value of `last_intensity` set in `State::new`
(src/state.rs line 150, `let intensity = 0.8f32`). -/
def initial_last_intensity : ℚ := 4 / 5

/-- Initial value of `intensity_multiplier` set in `State::new`
(src/state.rs line 495, `intensity_multiplier: 1.0`). -/
def initial_intensity_multiplier : ℚ := 1

/-- Claim C1: for every state satisfying the documented intensity invariant
and every `dt ≥ 0`, the intensity step with no volume sample returns
`max (last_intensity - dt/20) 0`, stores that value as the new
`last_intensity`, and the returned intensity is never negative. -/
theorem update_none_decays (dt : ℚ) (s : IntensityState)
    (hdt : 0 ≤ dt) (h1 : s.last_intensity ≤ 1) :
    (updateIntensity none dt s).1 = max (s.last_intensity - dt / 20) 0 ∧
    (updateIntensity none dt s).2.last_intensity
      = max (s.last_intensity - dt / 20) 0 ∧
    0 ≤ (updateIntensity none dt s).1 := by
  have hd : 0 ≤ dt / 20 := by positivity
  have hc1 : max (s.last_intensity - dt / 20) 0 ≤ 1 := by
    apply max_le _ zero_le_one
    linarith
  have hnot : ¬ (1 < max (s.last_intensity - dt / 20) 0) := not_lt.mpr hc1
  unfold updateIntensity candidateIntensity applyGain
  by_cases hz : max (s.last_intensity - dt / 20) 0 = 0
  · simp [hnot, hz, le_max_right]
    norm_num
  · simp [hnot, hz, le_max_right]

/-- Witness for C1 at Scenario A of the spec: `last_intensity = 0.8`,
`dt = 16`, no sample, so the decayed candidate bottoms out at `0`. -/
theorem update_none_decays_witness :
    ((0 : ℚ) ≤ 16 ∧ (⟨4/5, 1⟩ : IntensityState).last_intensity ≤ 1) ∧
    ((updateIntensity none 16 ⟨4/5, 1⟩).1 = max ((4:ℚ)/5 - 16 / 20) 0 ∧
     (updateIntensity none 16 ⟨4/5, 1⟩).2.last_intensity
       = max ((4:ℚ)/5 - 16 / 20) 0 ∧
     0 ≤ (updateIntensity none 16 ⟨4/5, 1⟩).1) :=
  ⟨⟨by norm_num, by norm_num⟩,
   update_none_decays 16 ⟨4/5, 1⟩ (by norm_num) (by norm_num)⟩

/-- Claim C2: whenever the scaled sample `raw * multiplier` exceeds `1`
(for a stored, hence positive, multiplier), the intensity step returns
exactly `1`, and the stored multiplier is divided by the pre-clip candidate
and strictly decreases. -/
theorem update_clip (raw dt : ℚ) (s : IntensityState)
    (hm : 0 < s.intensity_multiplier)
    (hc : 1 < raw * s.intensity_multiplier) :
    (updateIntensity (some raw) dt s).1 = 1 ∧
    (updateIntensity (some raw) dt s).2.intensity_multiplier
      = s.intensity_multiplier / (raw * s.intensity_multiplier) ∧
    (updateIntensity (some raw) dt s).2.intensity_multiplier
      < s.intensity_multiplier := by
  have hcand : candidateIntensity (some raw) dt s = raw * s.intensity_multiplier :=
    rfl
  unfold updateIntensity applyGain
  rw [hcand, if_pos hc]
  exact ⟨rfl, rfl, div_lt_self hm hc⟩

/-- Witness for C2 at Scenario B of the spec: `multiplier = 1`,
sample `1.5`, so the step clips to `1` and the multiplier drops to `2/3`. -/
theorem update_clip_witness :
    ((0 : ℚ) < (⟨4/5, 1⟩ : IntensityState).intensity_multiplier ∧
      1 < (3/2 : ℚ) * (⟨4/5, 1⟩ : IntensityState).intensity_multiplier) ∧
    ((updateIntensity (some (3/2)) 0 ⟨4/5, 1⟩).1 = 1 ∧
     (updateIntensity (some (3/2)) 0 ⟨4/5, 1⟩).2.intensity_multiplier
       = (⟨4/5, 1⟩ : IntensityState).intensity_multiplier
           * ((3/2 : ℚ) * (⟨4/5, 1⟩ : IntensityState).intensity_multiplier)⁻¹ ∧
     (updateIntensity (some (3/2)) 0 ⟨4/5, 1⟩).2.intensity_multiplier
       < (⟨4/5, 1⟩ : IntensityState).intensity_multiplier) := by
  have h := update_clip (3/2) 0 ⟨4/5, 1⟩ (by norm_num) (by norm_num)
  exact ⟨⟨by norm_num, by norm_num⟩, by simpa [div_eq_mul_inv] using h⟩

/-- Claim C5: whenever the scaled sample `raw * multiplier` is nonzero and
at most `1`, the intensity step returns it unchanged and ramps the stored
multiplier to `min (multiplier + dt/20) 100`. -/
theorem update_ramp (raw dt : ℚ) (s : IntensityState)
    (hne : raw * s.intensity_multiplier ≠ 0)
    (hle : raw * s.intensity_multiplier ≤ 1) :
    (updateIntensity (some raw) dt s).1 = raw * s.intensity_multiplier ∧
    (updateIntensity (some raw) dt s).2.intensity_multiplier
      = min (s.intensity_multiplier + dt / 20) 100 := by
  unfold updateIntensity candidateIntensity applyGain
  simp [not_lt.mpr hle, hne]

/-- Witness for C5 at Scenario C of the spec: `multiplier = 1`, sample
`0.5`, `dt = 0.1`, so the step returns `0.5` and the new multiplier is
`1.005`. -/
theorem update_ramp_witness :
    ((1/2 : ℚ) * (⟨4/5, 1⟩ : IntensityState).intensity_multiplier ≠ 0 ∧
      (1/2 : ℚ) * (⟨4/5, 1⟩ : IntensityState).intensity_multiplier ≤ 1) ∧
    ((updateIntensity (some (1/2)) (1/10) ⟨4/5, 1⟩).1
        = (1/2 : ℚ) * (⟨4/5, 1⟩ : IntensityState).intensity_multiplier ∧
     (updateIntensity (some (1/2)) (1/10) ⟨4/5, 1⟩).2.intensity_multiplier
        = min ((⟨4/5, 1⟩ : IntensityState).intensity_multiplier + (1/10) / 20)
            100) ∧
    (updateIntensity (some (1/2)) (1/10) ⟨4/5, 1⟩).1 = 1/2 ∧
    (updateIntensity (some (1/2)) (1/10) ⟨4/5, 1⟩).2.intensity_multiplier
        = 201 / 200 := by
  have h := update_ramp (1/2) (1/10) ⟨4/5, 1⟩ (by norm_num) (by norm_num)
  refine ⟨⟨by norm_num, by norm_num⟩, h, ?_, ?_⟩
  · rw [h.1]
    norm_num
  · rw [h.2]
    norm_num [min_eq_left]

/-- Counterexample to claim C3 as stated: starting from the initial
multiplier `1.0`, a single call with sample `1.5` (Scenario B of the spec)
leaves the stored multiplier at `2/3`, outside `[1, 100]`. -/
theorem gain_interval_cex :
    ¬ (1 ≤ (updateIntensity (some (3/2)) 0
        ⟨initial_last_intensity, initial_intensity_multiplier⟩).2.intensity_multiplier) := by
  norm_num [updateIntensity, candidateIntensity, applyGain,
    initial_last_intensity, initial_intensity_multiplier]

/-- Amended claim C3: the gain multiplier always stays in `(0, 100]` — the
initial value `1.0` lies in that interval, and every call of the intensity
step (any sample, any `dt ≥ 0`) preserves it.  (The lower bound `1` of the
original claim fails: the clipping branch divides the multiplier below `1`,
as the spec's own Scenario B shows.) -/
theorem gain_bounds (raw_sample : Option ℚ) (dt : ℚ) (s : IntensityState)
    (hdt : 0 ≤ dt) (hm0 : 0 < s.intensity_multiplier)
    (hm1 : s.intensity_multiplier ≤ 100) :
    (0 < initial_intensity_multiplier ∧ initial_intensity_multiplier ≤ 100) ∧
    0 < (updateIntensity raw_sample dt s).2.intensity_multiplier ∧
    (updateIntensity raw_sample dt s).2.intensity_multiplier ≤ 100 := by
  refine ⟨⟨by norm_num [initial_intensity_multiplier],
    by norm_num [initial_intensity_multiplier]⟩, ?_⟩
  unfold updateIntensity applyGain
  set c := candidateIntensity raw_sample dt s with hc
  by_cases h1 : 1 < c
  · rw [if_pos h1]
    have hc0 : 0 < c := lt_trans one_pos h1
    refine ⟨div_pos hm0 hc0, ?_⟩
    exact le_trans (div_le_self (le_of_lt hm0) (le_of_lt h1)) hm1
  · rw [if_neg h1]
    by_cases h0 : c ≠ 0
    · rw [if_pos h0]
      refine ⟨lt_min (by linarith) (by norm_num), min_le_right _ _⟩
    · rw [if_neg h0]
      exact ⟨hm0, hm1⟩

/-- Witness for the amended claim C3 at the decay step of Scenario A. -/
theorem gain_bounds_witness :
    ((0 : ℚ) ≤ 16 ∧ (0 : ℚ) < (⟨4/5, 1⟩ : IntensityState).intensity_multiplier ∧
      (⟨4/5, 1⟩ : IntensityState).intensity_multiplier ≤ 100) ∧
    ((0 < initial_intensity_multiplier ∧ initial_intensity_multiplier ≤ 100) ∧
     0 < (updateIntensity none 16 ⟨4/5, 1⟩).2.intensity_multiplier ∧
     (updateIntensity none 16 ⟨4/5, 1⟩).2.intensity_multiplier ≤ 100) :=
  ⟨⟨by norm_num, by norm_num, by norm_num⟩,
   gain_bounds none 16 ⟨4/5, 1⟩ (by norm_num) (by norm_num) (by norm_num)⟩

/-- Counterexample to claim C4 as stated: on the decay branch (no sample)
with `last_intensity = 0.8`, multiplier `1.0` and `dt = 0.1`, the stored
multiplier rises to `1.005 > 1`, because the ramp branch of `State::update`
does not check whether a sample was present. -/
theorem decay_gain_cex :
    ¬ ((updateIntensity none (1/10)
        ⟨initial_last_intensity, initial_intensity_multiplier⟩).2.intensity_multiplier
      ≤ initial_intensity_multiplier) := by
  norm_num [updateIntensity, candidateIntensity, applyGain,
    initial_last_intensity, initial_intensity_multiplier]

/-- Amended claim C4: on the decay branch (no volume sample, `dt ≥ 0`,
`last_intensity ≤ 1`, multiplier at most its cap `100`) the gain multiplier
is never adjusted downward: it is unchanged when the decayed candidate is
zero and otherwise ramps up by `dt / 20` capped at `100`. -/
theorem decay_gain_monotone (dt : ℚ) (s : IntensityState)
    (hdt : 0 ≤ dt) (h1 : s.last_intensity ≤ 1)
    (hm : s.intensity_multiplier ≤ 100) :
    s.intensity_multiplier
      ≤ (updateIntensity none dt s).2.intensity_multiplier := by
  have hd : 0 ≤ dt / 20 := by positivity
  have hc1 : max (s.last_intensity - dt / 20) 0 ≤ 1 := by
    apply max_le _ zero_le_one
    linarith
  have hnot : ¬ (1 < max (s.last_intensity - dt / 20) 0) := not_lt.mpr hc1
  unfold updateIntensity candidateIntensity applyGain
  rw [if_neg hnot]
  by_cases hz : max (s.last_intensity - dt / 20) 0 = 0
  · rw [if_neg (not_not_intro hz)]
  · rw [if_pos hz]
    exact le_min (by linarith) hm

/-- Witness for the amended claim C4 at `dt = 0.1` from the initial
intensity state. -/
theorem decay_gain_monotone_witness :
    ((0 : ℚ) ≤ 1/10 ∧ (⟨4/5, 1⟩ : IntensityState).last_intensity ≤ 1 ∧
      (⟨4/5, 1⟩ : IntensityState).intensity_multiplier ≤ 100) ∧
    (⟨4/5, 1⟩ : IntensityState).intensity_multiplier
      ≤ (updateIntensity none (1/10) ⟨4/5, 1⟩).2.intensity_multiplier :=
  ⟨⟨by norm_num, by norm_num, by norm_num⟩,
   decay_gain_monotone (1/10) ⟨4/5, 1⟩ (by norm_num) (by norm_num) (by norm_num)⟩

/-- Model of the thread-local generator `rand::rng()`: a stream of rational
draws, conceptually uniform in `[0,1)`, together with a cursor.  Each call
of a `random_*` method consumes one draw and advances the cursor, as
successive calls on the stateful thread RNG do. -/
structure Rng where
  stream : Nat → ℚ
  cursor : Nat

/-- One draw from the generator. -/
def Rng.next (r : Rng) : ℚ × Rng :=
  (r.stream r.cursor, ⟨r.stream, r.cursor + 1⟩)

/-- Model of `rng.random_range(0..n)`: the draw `u` scaled to the range and
truncated to an integer. -/
def randomRangeNat (r : Rng) (n : Nat) : Nat × Rng :=
  let d := r.next
  (⌊d.1 * n⌋.toNat, d.2)

/-- Model of `rng.random_bool(0.5)`. -/
def randomBool (r : Rng) : Bool × Rng :=
  let d := r.next
  (decide (d.1 < 1/2), d.2)

/-- Model of `rng.random_range(lo..hi)` on floats. -/
def randomRange (r : Rng) (lo hi : ℚ) : ℚ × Rng :=
  let d := r.next
  (lo + (hi - lo) * d.1, d.2)

/-- Mirror of the `Point` struct (src/state.rs lines 812-817). -/
structure Point where
  position : ℚ × ℚ
  velocity : ℚ × ℚ
deriving DecidableEq

/-- Mirror of the `WindowSize` struct (src/state.rs lines 819-823), also
used for window positions. -/
structure WindowSize where
  size : ℚ × ℚ
deriving DecidableEq

/-- The dimensions of the `wgpu::SurfaceConfiguration` held in
`State::config`; the format and presentation mode are set once in
`State::new` and never mutated, so they are not modelled. -/
structure SurfaceConfiguration where
  width : Nat
  height : Nat
deriving DecidableEq

/-- The body of the loop of `State::create_points` (src/state.rs lines
729-741): one random point with position inside the window and velocity
magnitude in `[1,3)` per axis with a random sign. -/
def createPoint (window_size : WindowSize) (r : Rng) : Point × Rng :=
  let width := ⌊window_size.size.1⌋.toNat
  let height := ⌊window_size.size.2⌋.toNat
  let dx := randomRangeNat r width
  let dy := randomRangeNat dx.2 height
  let dix := randomBool dy.2
  let diy := randomBool dix.2
  let dvx := randomRange diy.2 1 3
  let dvy := randomRange dvx.2 1 3
  (⟨((dx.1 : ℚ), (dy.1 : ℚ)),
    (dvx.1 * (if dix.1 then -1 else 1), dvy.1 * (if diy.1 then -1 else 1))⟩,
   dvy.2)

/-- Translation of `State::create_points` (src/state.rs lines 722-744),
with the thread-local generator threaded explicitly. -/
def create_points (points_count : Nat) (window_size : WindowSize) (r : Rng) :
    List Point × Rng :=
  match points_count with
  | 0 => ([], r)
  | n + 1 =>
    let d := createPoint window_size r
    let rest := create_points n window_size d.2
    (d.1 :: rest.1, rest.2)

/-- The host-visible fields of the `State` struct (src/state.rs lines
19-48).  GPU buffers are modelled by their current contents; the external
`hyprctl` window-position query of `get_window_pos` is modelled by the
`window_pos_query` capability field. -/
structure State where
  config : SurfaceConfiguration
  is_surface_configured : Bool
  msaa_texture_size : SurfaceConfiguration
  window_size_uniform : WindowSize
  window_pos_uniform : WindowSize
  delta_time_uniform : ℚ
  intensity_uniform : ℚ
  last_intensity : ℚ
  intensity_multiplier : ℚ
  points : List Point
  points_count : Nat
  has_background_image : Bool
  rng : Rng
  window_pos_query : Option WindowSize

/-- Translation of `State::resize` (src/state.rs lines 507-535): with two
positive dimensions it rewrites the surface configuration, marks the
surface configured, recreates the MSAA texture, rewrites the size and
position uniforms, and reseeds the points buffer; otherwise it does
nothing. -/
def State.resize (s : State) (width height : Nat) : State :=
  if 0 < width ∧ 0 < height then
    let config : SurfaceConfiguration := ⟨width, height⟩
    let window_size : WindowSize := ⟨((width : ℚ), (height : ℚ))⟩
    let window_pos := s.window_pos_query.getD ⟨(0, 0)⟩
    let seeded := create_points s.points_count window_size s.rng
    { s with
      config := config
      is_surface_configured := true
      msaa_texture_size := config
      window_size_uniform := window_size
      window_pos_uniform := window_pos
      points := seeded.1
      rng := seeded.2 }
  else s

/-- The constructors of `wgpu::SurfaceError`, the error type of
`State::render`. -/
inductive SurfaceError
  | Timeout
  | Outdated
  | Lost
  | OutOfMemory
  | Other
deriving DecidableEq

/-- The GPU work issued by one call of `State::render`. -/
structure RenderWork where
  attempted_acquire : Bool
  acquired_surface_texture : Bool
  compute_workgroups : Nat
  drew_background : Bool
  particle_instances : Nat
  submitted : Bool
  presented : Bool
deriving DecidableEq

/-- The empty `RenderWork`: no acquisition attempted, no compute dispatch,
no draw, nothing submitted or presented. -/
def noRenderWork : RenderWork := ⟨false, false, 0, false, 0, false, false⟩

/-- Translation of `State::render` (src/state.rs lines 537-608).  The
outcome of `surface.get_current_texture()` is an explicit oracle input.
If the surface was never configured the function returns `Ok(())` before
touching the surface; a failed acquisition propagates the error with no
GPU work; otherwise one compute pass of `⌈points_count / 64⌉` workgroups
and one render pass (optional background quad, then `points_count`
particle instances) are encoded, submitted and presented. -/
def State.render (s : State) (acquire : Except SurfaceError Unit) :
    Except SurfaceError Unit × RenderWork :=
  if s.is_surface_configured = false then
    (Except.ok (), noRenderWork)
  else
    match acquire with
    | Except.error e => (Except.error e, { noRenderWork with attempted_acquire := true })
    | Except.ok _ =>
      (Except.ok (),
       ⟨true, true, (s.points_count + 63) / 64, s.has_background_image,
        s.points_count, true, true⟩)

/-- Translation of `State::update` (src/state.rs lines 610-634).  The
result of `volume_provider.poll_volume()` is an explicit input; the
`.unwrap()` on it panics on an `Err`, modelled by `none`.  Otherwise the
delta-time uniform is rewritten, the intensity step runs, and its output is
written to the intensity uniform and persisted. -/
def State.update (s : State) (poll_result : Except String (Option ℚ)) (dt : ℚ) :
    Option State :=
  match poll_result with
  | Except.error _ => none
  | Except.ok raw_sample =>
    let out := updateIntensity raw_sample dt
      ⟨s.last_intensity, s.intensity_multiplier⟩
    some { s with
      delta_time_uniform := dt
      intensity_uniform := out.1
      last_intensity := out.2.last_intensity
      intensity_multiplier := out.2.intensity_multiplier }

/-- The window events dispatched in `App::window_event` (src/app.rs lines
100-121). -/
inductive WindowEvent
  | Resized (width height : Nat)
  | Moved
  | CloseRequested
  | RedrawRequested

/-- Translation of the event dispatch of `App::window_event` (src/app.rs
lines 100-121).  Oracle inputs: the frame delta time, the poll result, the
surface-acquisition outcome and the current `window.inner_size()`.  The
result is `none` for a panic inside the handler, and otherwise the new
state together with the exit flag, set only by a close request (via
`event_loop.exit()`).  A lost or outdated surface is answered by
`state.resize` at the current window dimensions; any other render error is
only logged. -/
def window_event (s : State) (event : WindowEvent) (dt : ℚ)
    (poll_result : Except String (Option ℚ))
    (acquire : Except SurfaceError Unit)
    (inner_width inner_height : Nat) : Option (State × Bool) :=
  match event with
  | WindowEvent.Resized w h => some (s.resize w h, false)
  | WindowEvent.Moved => some (s, false)
  | WindowEvent.CloseRequested => some (s, true)
  | WindowEvent.RedrawRequested =>
    match s.update poll_result dt with
    | none => none
    | some s1 =>
      match (s1.render acquire).1 with
      | Except.ok _ => some (s1, false)
      | Except.error SurfaceError.Lost =>
        some (s1.resize inner_width inner_height, false)
      | Except.error SurfaceError.Outdated =>
        some (s1.resize inner_width inner_height, false)
      | Except.error _ => some (s1, false)

/-- Claim C6: a resize with a zero width or a zero height is a complete
no-op — every modelled field of the state (surface configuration,
configured flag, MSAA texture, size and position uniforms, points buffer,
generator) is left unchanged. -/
theorem resize_zero_noop (s : State) (w h : Nat) :
    s.resize 0 h = s ∧ s.resize w 0 = s := by
  constructor <;> simp [State.resize]

/-- A concrete state as left by `State::new` after a first successful
resize to a 2-by-2 surface, used as input for concrete evaluations; the
generator stream is constantly `0` and the position query is absent. -/
def sampleState : State where
  config := ⟨2, 2⟩
  is_surface_configured := true
  msaa_texture_size := ⟨2, 2⟩
  window_size_uniform := ⟨(2, 2)⟩
  window_pos_uniform := ⟨(0, 0)⟩
  delta_time_uniform := 4/250
  intensity_uniform := 4/5
  last_intensity := 4/5
  intensity_multiplier := 1
  points := []
  points_count := 1000
  has_background_image := false
  rng := ⟨fun _ => 0, 0⟩
  window_pos_query := none

/-- Counterexample to claim C9 as stated: `State::update` calls
`.unwrap()` on the poll result, so an `Err` from the volume provider (the
`poll_volume` signature returns `anyhow::Result`, and the PulseAudio
implementation has fallible `peek` / `discard` / byte-conversion paths)
makes the update step panic instead of completing with a value. -/
theorem update_err_cex :
    sampleState.update (Except.error "peek failed") (4/250) = none :=
  rfl

/-- Amended claim C9: the update step is failure-free whenever the volume
provider's poll returns `Ok` — for every sample outcome (present or
absent) and every delta time it completes and returns a successor state;
only an `Err` poll result makes it panic on the `.unwrap()`. -/
theorem update_ok_total (s : State) (raw_sample : Option ℚ) (dt : ℚ) :
    ∃ t, s.update (Except.ok raw_sample) dt = some t :=
  ⟨_, rfl⟩

/-- A sequence of `resize` calls applied in order, as dispatched by the
event loop for successive `Resized` events. -/
def applyResizes (s : State) : List (Nat × Nat) → State
  | [] => s
  | d :: rest => applyResizes (s.resize d.1 d.2) rest

/-- One resize sets the configured flag exactly when both dimensions are
positive, and never clears it. -/
theorem resize_configured (s : State) (w h : Nat) :
    (s.resize w h).is_surface_configured
      = if 0 < w ∧ 0 < h then true else s.is_surface_configured := by
  unfold State.resize
  by_cases hw : 0 < w ∧ 0 < h <;> simp [hw]

/-- The surface is configured after a sequence of resizes from an
unconfigured state exactly when some resize in the sequence had two
positive dimensions. -/
theorem applyResizes_configured (l : List (Nat × Nat)) (s : State)
    (hs : s.is_surface_configured = false) :
    ((applyResizes s l).is_surface_configured = true
      ↔ ∃ d ∈ l, 0 < d.1 ∧ 0 < d.2) := by
  have mono : ∀ (rest : List (Nat × Nat)) (t : State),
      t.is_surface_configured = true →
      (applyResizes t rest).is_surface_configured = true := by
    intro rest
    induction rest with
    | nil =>
      intro t ht
      simpa [applyResizes] using ht
    | cons e es ihe =>
      intro t ht
      simp only [applyResizes]
      apply ihe
      rw [resize_configured]
      split <;> simp [ht]
  induction l generalizing s with
  | nil => simp [applyResizes, hs]
  | cons d rest ih =>
    by_cases hd : 0 < d.1 ∧ 0 < d.2
    · have hc : (s.resize d.1 d.2).is_surface_configured = true := by
        rw [resize_configured]
        simp [hd]
      simp only [applyResizes]
      constructor
      · intro _
        exact ⟨d, by simp, hd⟩
      · intro _
        exact mono _ _ hc
    · have hc : (s.resize d.1 d.2).is_surface_configured = false := by
        rw [resize_configured, hs]
        simp [hd]
      simp only [applyResizes]
      refine Iff.trans (ih _ hc) ?_
      simp only [List.mem_cons]
      constructor
      · rintro ⟨e, he, hpos⟩
        exact ⟨e, Or.inr he, hpos⟩
      · rintro ⟨e, he, hpos⟩
        rcases he with rfl | he
        · exact absurd hpos hd
        · exact ⟨e, he, hpos⟩

/-- Claim C10: from an unconfigured state (as produced by `State::new`,
which sets `is_surface_configured: false`), after any sequence of resizes
each of which has a zero dimension, the surface is still unconfigured and
`State::render` returns `Ok(())` immediately: no surface-image acquisition
is attempted, no compute or render pass is issued, and nothing is
submitted or presented, whatever the acquisition oracle would have
answered. -/
theorem render_unconfigured (s : State) (l : List (Nat × Nat))
    (acquire : Except SurfaceError Unit)
    (hs : s.is_surface_configured = false)
    (hl : ∀ d ∈ l, d.1 = 0 ∨ d.2 = 0) :
    (applyResizes s l).is_surface_configured = false ∧
    (applyResizes s l).render acquire = (Except.ok (), noRenderWork) := by
  have hnc : (applyResizes s l).is_surface_configured = false := by
    rcases Bool.eq_false_or_eq_true (applyResizes s l).is_surface_configured
      with hb | hb
    · obtain ⟨d, hd, hpos⟩ := (applyResizes_configured l s hs).mp hb
      rcases hl d hd with h0 | h0
      · rw [h0] at hpos
        exact absurd hpos.1 (lt_irrefl 0)
      · rw [h0] at hpos
        exact absurd hpos.2 (lt_irrefl 0)
    · exact hb
  refine ⟨hnc, ?_⟩
  unfold State.render
  rw [hnc]
  simp

/-- Witness for C10: an unconfigured state run through the zero-dimension
resizes `(0, 5)` and `(7, 0)` still renders to `Ok(())` with no GPU
work. -/
theorem render_unconfigured_witness :
    (({ sampleState with is_surface_configured := false } : State).is_surface_configured = false ∧
      (∀ d ∈ [((0 : Nat), (5 : Nat)), (7, 0)], d.1 = 0 ∨ d.2 = 0)) ∧
    ((applyResizes { sampleState with is_surface_configured := false }
        [(0, 5), (7, 0)]).is_surface_configured = false ∧
     (applyResizes { sampleState with is_surface_configured := false }
        [(0, 5), (7, 0)]).render (Except.error SurfaceError.Lost)
       = (Except.ok (), noRenderWork)) :=
  ⟨⟨rfl, by decide⟩,
   render_unconfigured { sampleState with is_surface_configured := false }
     [(0, 5), (7, 0)] (Except.error SurfaceError.Lost) rfl (by decide)⟩

/-- One point generation consumes exactly six draws. -/
theorem createPoint_rng (window_size : WindowSize) (r : Rng) :
    (createPoint window_size r).2 = ⟨r.stream, r.cursor + 6⟩ := by
  simp [createPoint, randomRangeNat, randomBool, randomRange, Rng.next]

/-- Reseeding `n` points consumes exactly `6 * n` draws and keeps the
underlying stream. -/
theorem create_points_rng (n : Nat) (window_size : WindowSize) (r : Rng) :
    (create_points n window_size r).2 = ⟨r.stream, r.cursor + 6 * n⟩ := by
  induction n generalizing r with
  | zero => simp [create_points]
  | succ k ih =>
    simp only [create_points]
    rw [createPoint_rng, ih]
    congr 1
    show r.cursor + 6 + 6 * k = r.cursor + 6 * (k + 1)
    omega

/-- The first reseeded point is generated from the generator as handed in. -/
theorem create_points_head (n : Nat) (window_size : WindowSize) (r : Rng)
    (hn : 0 < n) :
    (create_points n window_size r).1.head?
      = some (createPoint window_size r).1 := by
  cases n with
  | zero => exact absurd hn (lt_irrefl 0)
  | succ k => simp [create_points]

/-- The fields written by a resize with two positive dimensions. -/
theorem resize_pos_fields (s : State) (w h : Nat) (hw : 0 < w) (hh : 0 < h) :
    (s.resize w h).config = ⟨w, h⟩ ∧
    (s.resize w h).is_surface_configured = true ∧
    (s.resize w h).msaa_texture_size = ⟨w, h⟩ ∧
    (s.resize w h).window_size_uniform = ⟨((w : ℚ), (h : ℚ))⟩ ∧
    (s.resize w h).window_pos_uniform = s.window_pos_query.getD ⟨(0, 0)⟩ ∧
    (s.resize w h).points
      = (create_points s.points_count ⟨((w : ℚ), (h : ℚ))⟩ s.rng).1 ∧
    (s.resize w h).rng
      = (create_points s.points_count ⟨((w : ℚ), (h : ℚ))⟩ s.rng).2 ∧
    (s.resize w h).window_pos_query = s.window_pos_query ∧
    (s.resize w h).points_count = s.points_count := by
  unfold State.resize
  rw [if_pos ⟨hw, hh⟩]
  exact ⟨rfl, rfl, rfl, rfl, rfl, rfl, rfl, rfl, rfl⟩

/-- A generator stream whose first `6000` draws (one full reseed of `1000`
points) are `0` and whose later draws are `1/2`. -/
def cexStream : Nat → ℚ := fun i => if i < 6000 then 0 else 1/2

/-- The concrete state used to refute the resize-idempotence claim. -/
def cexState : State := { sampleState with rng := ⟨cexStream, 0⟩ }

/-- Counterexample to claim C7 as stated: resizing `cexState` to `(2, 2)`
twice produces a different particle buffer than resizing it once, because
every call of `State::resize` reseeds the points from the advancing
thread-local generator — the particle seed is not a function of the latest
`(w, h)`. -/
theorem resize_idem_cex :
    ((cexState.resize 2 2).resize 2 2).points ≠ (cexState.resize 2 2).points := by
  obtain ⟨-, -, -, -, -, hpts1, hrng1, -, hcnt1⟩ :=
    resize_pos_fields cexState 2 2 (by norm_num) (by norm_num)
  obtain ⟨-, -, -, -, -, hpts2a, -, -, -⟩ :=
    resize_pos_fields (cexState.resize 2 2) 2 2 (by norm_num) (by norm_num)
  have hr : (create_points cexState.points_count
        ⟨((((2 : Nat)) : ℚ), (((2 : Nat)) : ℚ))⟩ cexState.rng).2
      = ⟨cexStream, 6000⟩ := by
    rw [create_points_rng]
    rfl
  have hpts2 : ((cexState.resize 2 2).resize 2 2).points
      = (create_points 1000 ⟨((((2 : Nat)) : ℚ), (((2 : Nat)) : ℚ))⟩
          ⟨cexStream, 6000⟩).1 := by
    rw [hpts2a, hcnt1, hrng1, hr]
    rfl
  have h1 : (cexState.resize 2 2).points.head?
      = some (createPoint ⟨((((2 : Nat)) : ℚ), (((2 : Nat)) : ℚ))⟩
          ⟨cexStream, 0⟩).1 := by
    rw [hpts1]
    exact create_points_head 1000 _ ⟨cexStream, 0⟩ (by norm_num)
  have h2 : ((cexState.resize 2 2).resize 2 2).points.head?
      = some (createPoint ⟨((((2 : Nat)) : ℚ), (((2 : Nat)) : ℚ))⟩
          ⟨cexStream, 6000⟩).1 := by
    rw [hpts2]
    exact create_points_head 1000 _ ⟨cexStream, 6000⟩ (by norm_num)
  have hp0 : (createPoint ⟨((((2 : Nat)) : ℚ), (((2 : Nat)) : ℚ))⟩
        (⟨cexStream, 0⟩ : Rng)).1
      = ⟨((0 : ℚ), (0 : ℚ)), ((-1 : ℚ), (-1 : ℚ))⟩ := by
    norm_num [createPoint, randomRangeNat, randomBool, randomRange, Rng.next,
      cexStream, Int.toNat_ofNat, Int.toNat_one, Int.toNat_zero]
  have hp6 : (createPoint ⟨((((2 : Nat)) : ℚ), (((2 : Nat)) : ℚ))⟩
        (⟨cexStream, 6000⟩ : Rng)).1
      = ⟨((1 : ℚ), (1 : ℚ)), ((2 : ℚ), (2 : ℚ))⟩ := by
    norm_num [createPoint, randomRangeNat, randomBool, randomRange, Rng.next,
      cexStream, Int.toNat_ofNat, Int.toNat_one, Int.toNat_zero]
    rw [show (2 : Int).toNat = 2 from rfl]
    norm_num [Int.floor_one, Int.toNat_one]
  have hne : (createPoint ⟨((((2 : Nat)) : ℚ), (((2 : Nat)) : ℚ))⟩
        (⟨cexStream, 0⟩ : Rng)).1
      ≠ (createPoint ⟨((((2 : Nat)) : ℚ), (((2 : Nat)) : ℚ))⟩
        (⟨cexStream, 6000⟩ : Rng)).1 := by
    rw [hp0, hp6]
    simp [Point.mk.injEq, Prod.mk.injEq]
  intro heq
  rw [heq, h1] at h2
  exact hne (Option.some.inj h2)

/-- Amended claim C7: for every positive `(w, h)`, calling `resize(w, h)`
twice in succession produces the same surface configuration, configured
flag, MSAA texture and window-size uniform as calling it once, and the same
window-position uniform whenever the external position query answers the
same; the particle buffer, however, is reseeded from the advancing
thread-local generator on every call and is not a function of `(w, h)`. -/
theorem resize_uniform_idem (s : State) (w h : Nat)
    (hw : 0 < w) (hh : 0 < h) :
    ((s.resize w h).resize w h).config = (s.resize w h).config ∧
    ((s.resize w h).resize w h).is_surface_configured
      = (s.resize w h).is_surface_configured ∧
    ((s.resize w h).resize w h).msaa_texture_size
      = (s.resize w h).msaa_texture_size ∧
    ((s.resize w h).resize w h).window_size_uniform
      = (s.resize w h).window_size_uniform ∧
    ((s.resize w h).resize w h).window_pos_uniform
      = (s.resize w h).window_pos_uniform := by
  obtain ⟨c1, f1, m1, u1, p1, -, -, q1, -⟩ := resize_pos_fields s w h hw hh
  obtain ⟨c2, f2, m2, u2, p2, -, -, -, -⟩ :=
    resize_pos_fields (s.resize w h) w h hw hh
  refine ⟨?_, ?_, ?_, ?_, ?_⟩
  · rw [c2, c1]
  · rw [f2, f1]
  · rw [m2, m1]
  · rw [u2, u1]
  · rw [p2, p1, q1]

/-- Witness for the amended claim C7 at `(2, 2)` on the sample state. -/
theorem resize_uniform_idem_witness :
    ((0 : Nat) < 2 ∧ (0 : Nat) < 2) ∧
    (((sampleState.resize 2 2).resize 2 2).config
        = (sampleState.resize 2 2).config ∧
     ((sampleState.resize 2 2).resize 2 2).is_surface_configured
        = (sampleState.resize 2 2).is_surface_configured ∧
     ((sampleState.resize 2 2).resize 2 2).msaa_texture_size
        = (sampleState.resize 2 2).msaa_texture_size ∧
     ((sampleState.resize 2 2).resize 2 2).window_size_uniform
        = (sampleState.resize 2 2).window_size_uniform ∧
     ((sampleState.resize 2 2).resize 2 2).window_pos_uniform
        = (sampleState.resize 2 2).window_pos_uniform) :=
  ⟨⟨by norm_num, by norm_num⟩,
   resize_uniform_idem sampleState 2 2 (by norm_num) (by norm_num)⟩

/-- Claim C8: whenever the redraw handler's render call reports a lost or
outdated surface, `App::window_event` answers with `state.resize` at the
current window dimensions, the handler returns normally with the exit flag
unset (the event loop keeps running and the next frame proceeds), and the
resulting state is exactly the resize of the updated state — the frame is
skipped with no other state loss. -/
theorem render_lost_reconfigures (s s1 : State) (dt : ℚ)
    (raw_sample : Option ℚ) (acquire : Except SurfaceError Unit)
    (inner_width inner_height : Nat)
    (hupd : s.update (Except.ok raw_sample) dt = some s1)
    (hres : (s1.render acquire).1 = Except.error SurfaceError.Lost ∨
            (s1.render acquire).1 = Except.error SurfaceError.Outdated) :
    window_event s WindowEvent.RedrawRequested dt (Except.ok raw_sample)
        acquire inner_width inner_height
      = some (s1.resize inner_width inner_height, false) := by
  unfold window_event
  rcases hres with h | h <;> simp only [hupd, h]

/-- The state produced by one update step on `sampleState` with sample
`0.5` and `dt = 0`. -/
def sampleUpdated : State :=
  { sampleState with
    delta_time_uniform := 0
    intensity_uniform := 1/2
    last_intensity := 1/2
    intensity_multiplier := 1 }

/-- Witness for C8: on `sampleState` (configured surface), sample `0.5`,
`dt = 0` and a lost surface, the handler resizes to the window size
`(3, 3)` and does not exit. -/
theorem render_lost_reconfigures_witness :
    (sampleState.update (Except.ok (some (1/2))) 0 = some sampleUpdated ∧
      ((sampleUpdated.render (Except.error SurfaceError.Lost)).1
          = Except.error SurfaceError.Lost ∨
       (sampleUpdated.render (Except.error SurfaceError.Lost)).1
          = Except.error SurfaceError.Outdated)) ∧
    window_event sampleState WindowEvent.RedrawRequested 0
        (Except.ok (some (1/2))) (Except.error SurfaceError.Lost) 3 3
      = some (sampleUpdated.resize 3 3, false) := by
  have hupd : sampleState.update (Except.ok (some (1/2))) 0 = some sampleUpdated := by
    norm_num [State.update, updateIntensity, candidateIntensity, applyGain,
      sampleState, sampleUpdated, min_def]
  have hres : (sampleUpdated.render (Except.error SurfaceError.Lost)).1
      = Except.error SurfaceError.Lost := rfl
  exact ⟨⟨hupd, Or.inl hres⟩,
    render_lost_reconfigures sampleState sampleUpdated 0 (some (1/2))
      (Except.error SurfaceError.Lost) 3 3 hupd (Or.inl hres)⟩
